import Mathlib

/-!
Verification of the mock-interview session state machine
(`src/app.py` / `src/utils.py`).

The Python code is shallowly embedded: the completion provider
(OpenRouter via the `openai` client) is an oracle `Gateway :
ChatRequest → ApiResult`; Streamlit's `st.session_state` is the
`SessionState` structure; one UI event handler (the Start button,
the answer form's submit button) becomes one Lean function from the
pre-state to a `StepResult` that also records the gateway requests
issued, the `st.error` / `st.warning` messages shown, and the records
handed to `store_session`.
-/

namespace MockInterview

/-- Whitespace characters stripped by Python's `str.strip()`
(ASCII subset; the app only ever strips model output and user text). -/
def py_isspace (c : Char) : Bool :=
  c == ' ' || c == '\t' || c == '\n' || c == '\x0b' || c == '\x0c' || c == '\r'

/-- `str.strip()` on a list of characters: drop leading and trailing whitespace. -/
def pyStripList (cs : List Char) : List Char :=
  ((cs.dropWhile py_isspace).reverse.dropWhile py_isspace).reverse

/-- Python's `s.strip()`. -/
def pyStrip (s : String) : String :=
  String.mk (pyStripList s.data)

/-- Python truthiness of an `Optional[str]`: `None` and `""` are falsy. -/
def truthy : Option String → Bool
  | none => false
  | some s => s != ""

/-- One chat message, `{"role": ..., "content": ...}`. -/
structure Message where
  role : String
  content : String
deriving DecidableEq

/-- One `client.chat.completions.create(...)` request: model, messages,
`max_tokens`, and `temperature` (a rational, e.g. 7/10 for `0.7`). -/
structure ChatRequest where
  model : String
  messages : List Message
  max_tokens : Nat
  temperature : ℚ
deriving DecidableEq

/-- The closed error taxonomy of the provider call sites:
`openai.AuthenticationError`, `openai.RateLimitError`, and the
catch-all `Exception` (carrying its display text). -/
inductive ApiError
  | authenticationError (msg : String)
  | rateLimitError (msg : String)
  | otherError (msg : String)
deriving DecidableEq

/-- The display text `str(e)` of a caught exception. -/
def ApiError.text : ApiError → String
  | .authenticationError m => m
  | .rateLimitError m => m
  | .otherError m => m

/-- Outcome of one provider call: the generated text, or an error. -/
inductive ApiResult
  | ok (text : String)
  | err (e : ApiError)
deriving DecidableEq

/-- The completion provider as a black box: request in, text or error out. -/
def Gateway : Type := ChatRequest → ApiResult

/-- The message list built by `generate_question` (src/app.py lines 100-133):
a style-dependent system prompt, the prior question/answer exchanges,
and a trailing user directive. -/
def question_messages (job_title : String) (max_questions : Nat) (interview_type : String)
    (previous_questions previous_answers : List String) : List Message :=
  let base : String :=
    "You are an expert interviewer for a " ++ job_title ++ " position. " ++
    "You will conduct a mock interview with a total of " ++ toString max_questions ++
    " questions. Ask one concise, relevant interview question at a time. " ++
    "Do not number your questions. " ++
    "Base your next question on the candidate's previous answers."
  let system_prompt : String :=
    if interview_type = "Technical" then
      base ++ " This is a technical interview. " ++
        "Ask a technical question related to the job, testing their " ++
        "knowledge and problem-solving skills."
    else if interview_type = "Behavioral (STAR format)" then
      base ++ " This is a behavioral interview. " ++
        "Ask a behavioral question that the user should answer using the STAR method. " ++
        "Start your question with 'Tell me about a time when...' or 'Describe a situation where...'"
    else
      base ++ " This is a general interview. Ask a common, non-technical question."
  let history : List Message :=
    ((previous_questions.zip previous_answers).map
      (fun qa => [Message.mk "assistant" qa.1, Message.mk "user" qa.2])).flatten
  let directive : Message :=
    if previous_questions = [] then
      Message.mk "user" "Please ask me the first question."
    else
      Message.mk "user" "Please ask me the next question."
  Message.mk "system" system_prompt :: (history ++ [directive])

/-- The full next-question request (`max_tokens=150`, `temperature=0.7`). -/
def question_request (job_title model_name : String) (max_questions : Nat)
    (interview_type : String) (previous_questions previous_answers : List String) :
    ChatRequest :=
  { model := model_name
    messages := question_messages job_title max_questions interview_type
      previous_questions previous_answers
    max_tokens := 150
    temperature := (7 : ℚ) / 10 }

/-- `generate_question` (src/app.py lines 89-153): issue the request;
on success return the stripped text, on each error kind return `none`
and show the corresponding `st.error` message. -/
def generate_question (gw : Gateway) (job_title model_name : String) (max_questions : Nat)
    (interview_type : String) (previous_questions previous_answers : List String) :
    Option String × List String :=
  match gw (question_request job_title model_name max_questions interview_type
      previous_questions previous_answers) with
  | .ok text => (some (pyStrip text), [])
  | .err (.authenticationError _) =>
      (none, ["Authentication Error: Please check your OpenRouter API key."])
  | .err (.rateLimitError _) =>
      (none, ["Rate Limit Exceeded: Please wait and try again or check your plan."])
  | .err (.otherError m) => (none, ["An API error occurred: " ++ m])

/-- The message pair built by `get_feedback_for_answer` (src/app.py lines 164-171). -/
def feedback_messages (question answer : String) : List Message :=
  [Message.mk "system"
    ("You are an expert interview coach. " ++
     "Provide 2-3 bullet points of constructive, concise feedback on the user's " ++
     "answer to the interview question. " ++
     "Focus on what they did well and how they could improve. " ++
     "Start with 'Here's some feedback on your answer:'"),
   Message.mk "user" ("Question: " ++ question ++ "\n\nAnswer: " ++ answer)]

/-- The per-answer feedback request (`max_tokens=200`, `temperature=0.4`). -/
def feedback_request (model_name question answer : String) : ChatRequest :=
  { model := model_name
    messages := feedback_messages question answer
    max_tokens := 200
    temperature := (4 : ℚ) / 10 }

/-- `get_feedback_for_answer` (src/app.py lines 157-186): stripped text on
success; on any exception only `print` runs (no UI error) and `None` returns. -/
def get_feedback_for_answer (gw : Gateway) (model_name question answer : String) :
    Option String :=
  match gw (feedback_request model_name question answer) with
  | .ok text => some (pyStrip text)
  | .err _ => none

/-- The transcript string built by the loop in `evaluate_answers`
(src/app.py lines 204-206). -/
def evaluation_transcript (questions answers : List String) : String :=
  ((questions.zip answers).enum).foldl
    (fun acc iqa =>
      acc ++ "Question " ++ toString (iqa.1 + 1) ++ ": " ++ iqa.2.1 ++
        "\nAnswer " ++ toString (iqa.1 + 1) ++ ": " ++ iqa.2.2 ++ "\n\n")
    ""

/-- The message list built by `evaluate_answers` (src/app.py lines 198-218):
only the question/answer pairs appear, feedback never does. -/
def evaluation_messages (job_title : String) (questions answers : List String) :
    List Message :=
  [Message.mk "system"
    ("You are an expert hiring manager for a " ++ job_title ++ " position. " ++
     "Your task is to provide a final, overall evaluation of the candidate's " ++
     "performance based on the following interview transcript."),
   Message.mk "user"
    ("Here is the interview transcript:\n\n" ++ evaluation_transcript questions answers ++
     "Please provide a concise, overall evaluation of the candidate's performance. " ++
     "Focus on: \n1. Overall Strengths \n2. Key Areas for Improvement. \n\n" ++
     "Provide your final feedback in clear, constructive bullet points.")]

/-- The final-evaluation request (`max_tokens=500`, `temperature=0.5`). -/
def evaluation_request (job_title model_name : String)
    (questions answers : List String) : ChatRequest :=
  { model := model_name
    messages := evaluation_messages job_title questions answers
    max_tokens := 500
    temperature := (5 : ℚ) / 10 }

/-- `evaluate_answers` (src/app.py lines 189-231): stripped text on success;
on any exception `None` plus one `st.error` message. -/
def evaluate_answers (gw : Gateway) (job_title model_name : String)
    (questions answers : List String) : Option String × List String :=
  match gw (evaluation_request job_title model_name questions answers) with
  | .ok text => (some (pyStrip text), [])
  | .err e => (none, ["An API error occurred during evaluation: " ++ e.text])

/-- A JSON value as stored by the app: strings, `null`, a list of strings,
or a list of string-or-null (the feedback list). -/
inductive JsonVal
  | str (s : String)
  | null
  | arrS (xs : List String)
  | arrOptS (xs : List (Option String))
deriving DecidableEq

/-- A JSON object, as an ordered association list of key/value pairs
(Python dicts preserve insertion order). -/
abbrev Record := List (String × JsonVal)

/-- The `session_data` dict built at src/app.py lines 450-459, in source
order.  The `user` field is `user_name or "Anonymous"` (Python `or`:
the empty string is falsy). -/
def session_data (user_name job_title : String) (questions answers : List String)
    (feedback : List (Option String)) (evaluation model_name timestamp : String) :
    Record :=
  [("user", JsonVal.str (if user_name = "" then "Anonymous" else user_name)),
   ("job_title", JsonVal.str job_title),
   ("questions", JsonVal.arrS questions),
   ("answers", JsonVal.arrS answers),
   ("feedback", JsonVal.arrOptS feedback),
   ("evaluation", JsonVal.str evaluation),
   ("model", JsonVal.str model_name),
   ("timestamp", JsonVal.str timestamp)]

/-- The fields of `st.session_state` used by `run_interview_app`
(src/app.py lines 327-334 initialise them; `client` is modelled as the
`Gateway` argument of each transition instead of stored state). -/
structure SessionState where
  interview_started : Bool
  questions : List String
  answers : List String
  feedback : List (Option String)
  evaluation : String
  job_title : String
  max_questions : Nat
deriving DecidableEq

/-- The state right after the initialisation block at src/app.py
lines 327-334 (`job_title` is only assigned on Start; default `""`). -/
def initState : SessionState :=
  { interview_started := false
    questions := []
    answers := []
    feedback := []
    evaluation := ""
    job_title := ""
    max_questions := 3 }

/-- The coarse session phase of the spec.  `run_interview_app` derives it
from the same tests: line 391 gates InProgress on `interview_started and
not evaluation`, line 470 shows the Completed view when `evaluation` is set. -/
inductive Phase
  | notStarted
  | inProgress
  | completed
deriving DecidableEq

/-- Phase of a session state. -/
def phase (s : SessionState) : Phase :=
  if s.interview_started = false then Phase.notStarted
  else if s.evaluation = "" then Phase.inProgress
  else Phase.completed

/-- Result of one UI event handler: the new session state, the gateway
requests issued (in order), the `st.error` messages, the `st.warning`
messages, and the records handed to `store_session`. -/
structure StepResult where
  state : SessionState
  calls : List ChatRequest
  errors : List String
  warnings : List String
  stored : List Record
deriving DecidableEq

/-- The Start-button handler (src/app.py lines 337-368).  The button is
rendered `disabled=interview_started`, so a click on a started session
does nothing.  With a non-empty API key and job title the lists are
reset, the first question requested, and on a truthy result the first
Turn is created; otherwise the phase stays NotStarted and an error shows. -/
def startInterview (gw : Gateway) (api_key model_name : String) (max_questions : Nat)
    (job_title interview_type : String) (s : SessionState) : StepResult :=
  if s.interview_started then
    { state := s, calls := [], errors := [], warnings := [], stored := [] }
  else if api_key ≠ "" ∧ job_title ≠ "" then
    let s0 : SessionState :=
      { s with questions := [], answers := [], feedback := [], evaluation := ""
               job_title := job_title, max_questions := max_questions }
    let gq := generate_question gw job_title model_name max_questions interview_type [] []
    if truthy gq.1 then
      { state := { s0 with questions := [gq.1.getD ""], interview_started := true }
        calls := [question_request job_title model_name max_questions interview_type [] []]
        errors := gq.2, warnings := [], stored := [] }
    else
      { state := s0
        calls := [question_request job_title model_name max_questions interview_type [] []]
        errors := gq.2 ++ ["Failed to start interview. Check API key or model choice."]
        warnings := [], stored := [] }
  else
    { state := s, calls := [], errors := []
      warnings := ["Please enter your API Key and a Job Title in the sidebar."]
      stored := [] }

/-- The answer-form submit handler (src/app.py lines 391-467).  The form
is only rendered while `interview_started and not evaluation` holds and
`len(answers) < len(questions)`; that guard is the outer condition.
A blank answer only shows a warning.  Otherwise the answer is appended,
feedback requested (absent on failure), and then either the next
question is requested (rolling the answer and feedback back if the
result is falsy) or, on the last answer, the final evaluation is
requested and on success stored together with the session record. -/
def submitAnswer (gw : Gateway) (model_name interview_type user_name timestamp : String)
    (s : SessionState) (answer : String) : StepResult :=
  if s.interview_started ∧ s.evaluation = "" ∧ s.answers.length < s.questions.length then
    if pyStrip answer ≠ "" then
      let q := s.questions.getD s.answers.length ""
      let answers1 := s.answers ++ [answer]
      let fb := get_feedback_for_answer gw model_name q answer
      let feedback1 := s.feedback ++ [fb]
      if answers1.length < s.max_questions then
        let gq := generate_question gw s.job_title model_name s.max_questions
          interview_type s.questions answers1
        if truthy gq.1 then
          { state := { s with answers := answers1, feedback := feedback1
                              questions := s.questions ++ [gq.1.getD ""] }
            calls := [feedback_request model_name q answer,
              question_request s.job_title model_name s.max_questions interview_type
                s.questions answers1]
            errors := gq.2, warnings := [], stored := [] }
        else
          { state := { s with answers := answers1.dropLast, feedback := feedback1.dropLast }
            calls := [feedback_request model_name q answer,
              question_request s.job_title model_name s.max_questions interview_type
                s.questions answers1]
            errors := gq.2 ++
              ["Error generating the next question (API call failed). Please try submitting your answer again."]
            warnings := [], stored := [] }
      else
        let ev := evaluate_answers gw s.job_title model_name s.questions answers1
        if truthy ev.1 then
          { state := { s with answers := answers1, feedback := feedback1
                              evaluation := ev.1.getD "" }
            calls := [feedback_request model_name q answer,
              evaluation_request s.job_title model_name s.questions answers1]
            errors := ev.2, warnings := []
            stored := [session_data user_name s.job_title s.questions answers1 feedback1
              (ev.1.getD "") model_name timestamp] }
        else
          { state := { s with answers := answers1, feedback := feedback1 }
            calls := [feedback_request model_name q answer,
              evaluation_request s.job_title model_name s.questions answers1]
            errors := ev.2 ++ ["Failed to get final evaluation."]
            warnings := [], stored := [] }
    else
      { state := s, calls := [], errors := []
        warnings := ["Please provide an answer."], stored := [] }
  else
    { state := s, calls := [], errors := [], warnings := [], stored := [] }

/-- The session states reachable through the UI: the fresh initial state
(also the result of `st.session_state.clear()` plus re-initialisation),
and the results of the Start and Submit handlers with arbitrary sidebar
configuration, gateway behaviour, and inputs. -/
inductive Reachable : SessionState → Prop
  | init : Reachable initState
  | start (gw : Gateway) (api_key model_name : String) (max_questions : Nat)
      (job_title interview_type : String) {s : SessionState} :
      Reachable s →
      Reachable (startInterview gw api_key model_name max_questions job_title
        interview_type s).state
  | submit (gw : Gateway) (model_name interview_type user_name timestamp answer : String)
      {s : SessionState} :
      Reachable s →
      Reachable (submitAnswer gw model_name interview_type user_name timestamp s answer).state

/-- The sort key used at src/app.py line 266:
`item[1].get("timestamp", "")` — the raw stored timestamp string, with
`""` when the field is missing.  (The store only ever writes string
timestamps; a non-string value would make Python's comparison raise.) -/
def timestampKey (r : Record) : String :=
  match r.lookup "timestamp" with
  | some (JsonVal.str t) => t
  | _ => ""

/-- The ordering used by `sorted(..., key=..., reverse=True)`:
`a` may precede `b` when `a`'s key is at least `b`'s key. -/
def timestampGe (a b : String × Record) : Prop :=
  timestampKey b.2 ≤ timestampKey a.2

instance : DecidableRel timestampGe :=
  fun a b =>
    decidable_of_iff ((timestampKey b.2).toList ≤ (timestampKey a.2).toList)
      String.le_iff_toList_le.symm

instance : IsTotal (String × Record) timestampGe :=
  ⟨fun a b => le_total (timestampKey b.2) (timestampKey a.2)⟩

instance : IsTrans (String × Record) timestampGe :=
  ⟨fun _ _ _ h1 h2 => le_trans h2 h1⟩

/-- `sorted_interviews` (src/app.py lines 264-268): Python's `sorted` is
stable, and `reverse=True` yields the stable descending order by the
key — which is exactly what a stable insertion sort under the total
preorder `timestampGe` computes. -/
def sorted_interviews (interviews : List (String × Record)) : List (String × Record) :=
  List.insertionSort timestampGe interviews

/-- The invariant tying the three transcript lists together: at most one
pending question, and one feedback slot per recorded answer. -/
def GoodState (s : SessionState) : Prop :=
  s.answers.length ≤ s.questions.length ∧
  s.questions.length ≤ s.answers.length + 1 ∧
  s.feedback.length = s.answers.length

theorem goodState_initState : GoodState initState := by
  refine ⟨?_, ?_, ?_⟩ <;> simp [initState]

theorem goodState_startInterview (gw : Gateway) (api_key model_name : String)
    (max_questions : Nat) (job_title interview_type : String) {s : SessionState}
    (h : GoodState s) :
    GoodState (startInterview gw api_key model_name max_questions job_title
      interview_type s).state := by
  unfold GoodState at h ⊢
  unfold startInterview
  split
  · exact h
  split
  · dsimp only
    split <;> simp
  · exact h

theorem goodState_submitAnswer (gw : Gateway)
    (model_name interview_type user_name timestamp : String) {s : SessionState}
    (answer : String) (h : GoodState s) :
    GoodState (submitAnswer gw model_name interview_type user_name timestamp s answer).state := by
  unfold GoodState at h ⊢
  unfold submitAnswer
  split
  case isTrue hg =>
    obtain ⟨-, -, hg3⟩ := hg
    split
    case isTrue hne =>
      dsimp only
      split
      case isTrue hlt =>
        split <;>
          simp only [List.length_append, List.length_cons, List.length_nil,
            List.length_dropLast] <;> omega
      case isFalse hge =>
        split <;>
          simp only [List.length_append, List.length_cons, List.length_nil,
            List.length_dropLast] <;> omega
    case isFalse => exact h
  case isFalse => exact h

theorem reachable_goodState {s : SessionState} (h : Reachable s) : GoodState s := by
  induction h with
  | init => exact goodState_initState
  | start gw api_key model_name max_questions job_title interview_type _ ih =>
      exact goodState_startInterview gw api_key model_name max_questions job_title
        interview_type ih
  | submit gw model_name interview_type user_name timestamp answer _ ih =>
      exact goodState_submitAnswer gw model_name interview_type user_name timestamp
        answer ih

/-- A gateway that always answers with the fixed text `t`. -/
def gwFixed (t : String) : Gateway := fun _ => ApiResult.ok t

/-- A gateway that always fails with a transient provider error. -/
def gwDown : Gateway := fun _ => ApiResult.err (ApiError.otherError "boom")

/-- A gateway on which only the per-answer feedback request fails
(the feedback request is the only one with `max_tokens = 200`). -/
def gwFeedbackDown : Gateway := fun req =>
  if req.max_tokens == 200 then ApiResult.err (ApiError.otherError "boom")
  else ApiResult.ok "Generated text"

/-- An in-progress session with one pending question and target 3,
as produced by a successful Start. -/
def sPending : SessionState :=
  { interview_started := true
    questions := ["Q1"]
    answers := []
    feedback := []
    evaluation := ""
    job_title := "Engineer"
    max_questions := 3 }

/-- An in-progress session stuck at its last pending question (target 1). -/
def sLast : SessionState :=
  { interview_started := true
    questions := ["Q1"]
    answers := []
    feedback := []
    evaluation := ""
    job_title := "Engineer"
    max_questions := 1 }

/-- C2: at every reachable session state that is in phase InProgress (the
handlers run to completion between reruns, so reachable states are
exactly the not-mid-flight ones), the transcript lists satisfy
`answers.length ≤ questions.length ≤ answers.length + 1`: at most one
asked-but-unanswered question. -/
theorem C2_inProgress_turn_invariant (s : SessionState) (hr : Reachable s)
    (hp : phase s = Phase.inProgress) :
    s.answers.length ≤ s.questions.length ∧
    s.questions.length ≤ s.answers.length + 1 := by
  have h := reachable_goodState hr
  exact ⟨h.1, h.2.1⟩

/-- Witness for C2: the state after a successful Start from the initial
state is reachable, InProgress, and satisfies the invariant. -/
theorem C2_inProgress_turn_invariant_witness :
    Reachable (startInterview (gwFixed "Q1") "key" "model-x" 3 "Engineer" "General"
      initState).state ∧
    phase (startInterview (gwFixed "Q1") "key" "model-x" 3 "Engineer" "General"
      initState).state = Phase.inProgress ∧
    ((startInterview (gwFixed "Q1") "key" "model-x" 3 "Engineer" "General"
        initState).state.answers.length ≤
      (startInterview (gwFixed "Q1") "key" "model-x" 3 "Engineer" "General"
        initState).state.questions.length ∧
     (startInterview (gwFixed "Q1") "key" "model-x" 3 "Engineer" "General"
        initState).state.questions.length ≤
      (startInterview (gwFixed "Q1") "key" "model-x" 3 "Engineer" "General"
        initState).state.answers.length + 1) :=
  ⟨Reachable.start (gwFixed "Q1") "key" "model-x" 3 "Engineer" "General" Reachable.init,
   by decide,
   C2_inProgress_turn_invariant _
     (Reachable.start (gwFixed "Q1") "key" "model-x" 3 "Engineer" "General" Reachable.init)
     (by decide)⟩

/-- C9: after every completed SubmitAnswer transition from a reachable
state, `feedback.length = answers.length`: a feedback entry (possibly
`none`) is appended for every recorded answer and popped together with
the answer on rollback. -/
theorem C9_feedback_length_matches_answers (gw : Gateway)
    (model_name interview_type user_name timestamp answer : String)
    (s : SessionState) (hr : Reachable s) :
    (submitAnswer gw model_name interview_type user_name timestamp s answer).state.feedback.length =
    (submitAnswer gw model_name interview_type user_name timestamp s answer).state.answers.length := by
  have h := reachable_goodState
    (Reachable.submit gw model_name interview_type user_name timestamp answer hr)
  exact h.2.2

/-- Witness for C9: a concrete submit on the reachable post-Start state. -/
theorem C9_feedback_length_matches_answers_witness :
    Reachable (startInterview (gwFixed "Q1") "key" "model-x" 3 "Engineer" "General"
      initState).state ∧
    (submitAnswer (gwFixed "text") "model-x" "General" "Alice" "2024-01-02T03:04:05"
      (startInterview (gwFixed "Q1") "key" "model-x" 3 "Engineer" "General"
        initState).state "my answer").state.feedback.length =
    (submitAnswer (gwFixed "text") "model-x" "General" "Alice" "2024-01-02T03:04:05"
      (startInterview (gwFixed "Q1") "key" "model-x" 3 "Engineer" "General"
        initState).state "my answer").state.answers.length :=
  ⟨Reachable.start (gwFixed "Q1") "key" "model-x" 3 "Engineer" "General" Reachable.init,
   C9_feedback_length_matches_answers (gwFixed "text") "model-x" "General" "Alice"
     "2024-01-02T03:04:05" "my answer" _
     (Reachable.start (gwFixed "Q1") "key" "model-x" 3 "Engineer" "General" Reachable.init)⟩

/-- C5: submitting an empty or all-whitespace answer from an InProgress
state with a pending question leaves the whole state unchanged, issues
no gateway request, and only shows the validation warning
"Please provide an answer.". -/
theorem C5_blank_answer_noop (gw : Gateway)
    (model_name interview_type user_name timestamp answer : String) (s : SessionState)
    (hst : s.interview_started = true) (hev : s.evaluation = "")
    (hpend : s.answers.length < s.questions.length)
    (hblank : pyStrip answer = "") :
    submitAnswer gw model_name interview_type user_name timestamp s answer =
      { state := s, calls := [], errors := []
        warnings := ["Please provide an answer."], stored := [] } := by
  unfold submitAnswer
  rw [if_pos ⟨hst, hev, hpend⟩, if_neg (by simp [hblank])]

/-- Witness for C5: a tab-and-spaces answer on a concrete pending state. -/
theorem C5_blank_answer_noop_witness :
    sPending.interview_started = true ∧ sPending.evaluation = "" ∧
    sPending.answers.length < sPending.questions.length ∧
    pyStrip "  \t " = "" ∧
    submitAnswer gwDown "model-x" "General" "Alice" "2024-01-02T03:04:05" sPending "  \t " =
      { state := sPending, calls := [], errors := []
        warnings := ["Please provide an answer."], stored := [] } :=
  ⟨by decide, by decide, by decide, by decide,
   C5_blank_answer_noop gwDown "model-x" "General" "Alice" "2024-01-02T03:04:05" "  \t "
     sPending (by decide) (by decide) (by decide) (by decide)⟩

/-- C1: from an InProgress state with a pending question, if the answer is
non-blank, the answered count stays below the target, and the
next-question call yields nothing usable, then the just-recorded answer
and its feedback entry are popped again: the resulting session state —
questions, answers, feedback, and hence the phase — is exactly the
pre-call state, and the retriable "try submitting your answer again"
error is reported. -/
theorem C1_rollback_on_question_failure (gw : Gateway)
    (model_name interview_type user_name timestamp answer : String) (s : SessionState)
    (hst : s.interview_started = true) (hev : s.evaluation = "")
    (hpend : s.answers.length < s.questions.length)
    (hans : pyStrip answer ≠ "")
    (hlt : s.answers.length + 1 < s.max_questions)
    (hfail : truthy (generate_question gw s.job_title model_name s.max_questions
        interview_type s.questions (s.answers ++ [answer])).1 = false) :
    (submitAnswer gw model_name interview_type user_name timestamp s answer).state = s ∧
    "Error generating the next question (API call failed). Please try submitting your answer again."
      ∈ (submitAnswer gw model_name interview_type user_name timestamp s answer).errors := by
  unfold submitAnswer
  rw [if_pos ⟨hst, hev, hpend⟩, if_pos hans]
  dsimp only
  rw [if_pos (by simpa using hlt), if_neg (by simp [hfail])]
  constructor
  · simp [List.dropLast_concat]
  · simp

/-- Witness for C1: a failing gateway rolls a concrete submit back. -/
theorem C1_rollback_on_question_failure_witness :
    sPending.interview_started = true ∧ sPending.evaluation = "" ∧
    sPending.answers.length < sPending.questions.length ∧
    pyStrip "my answer" ≠ "" ∧
    sPending.answers.length + 1 < sPending.max_questions ∧
    truthy (generate_question gwDown sPending.job_title "model-x" sPending.max_questions
      "General" sPending.questions (sPending.answers ++ ["my answer"])).1 = false ∧
    ((submitAnswer gwDown "model-x" "General" "Alice" "2024-01-02T03:04:05" sPending
        "my answer").state = sPending ∧
      "Error generating the next question (API call failed). Please try submitting your answer again."
        ∈ (submitAnswer gwDown "model-x" "General" "Alice" "2024-01-02T03:04:05" sPending
            "my answer").errors) :=
  ⟨by decide, by decide, by decide, by decide, by decide, by decide,
   C1_rollback_on_question_failure gwDown "model-x" "General" "Alice" "2024-01-02T03:04:05"
     "my answer" sPending (by decide) (by decide) (by decide) (by decide) (by decide)
     (by decide)⟩

/-- A usable question implies the call took the success branch, which
shows no error message. -/
theorem generate_question_truthy_no_error (gw : Gateway) (job_title model_name : String)
    (max_questions : Nat) (interview_type : String)
    (previous_questions previous_answers : List String)
    (h : truthy (generate_question gw job_title model_name max_questions interview_type
      previous_questions previous_answers).1 = true) :
    (generate_question gw job_title model_name max_questions interview_type
      previous_questions previous_answers).2 = [] := by
  unfold generate_question at h ⊢
  cases hg : gw (question_request job_title model_name max_questions interview_type
      previous_questions previous_answers) with
  | ok t => simp [hg]
  | err e => cases e <;> simp [hg, truthy] at h

/-- A usable evaluation implies the call took the success branch, which
shows no error message. -/
theorem evaluate_answers_truthy_no_error (gw : Gateway) (job_title model_name : String)
    (questions answers : List String)
    (h : truthy (evaluate_answers gw job_title model_name questions answers).1 = true) :
    (evaluate_answers gw job_title model_name questions answers).2 = [] := by
  unfold evaluate_answers at h ⊢
  cases hg : gw (evaluation_request job_title model_name questions answers) with
  | ok t => simp [hg]
  | err e => simp [hg, truthy] at h

/-- C3: when the submitted answer is the final (target-question-count-th)
one and the final-evaluation call yields nothing usable, the evaluation
stays absent, the phase stays InProgress, the just-recorded answer and
its feedback entry are kept (no rollback), nothing is stored, and the
error "Failed to get final evaluation." is reported, so the only way
forward is to retry the evaluation step. -/
theorem C3_eval_failure_keeps_answer (gw : Gateway)
    (model_name interview_type user_name timestamp answer : String) (s : SessionState)
    (hst : s.interview_started = true) (hev : s.evaluation = "")
    (hpend : s.answers.length < s.questions.length)
    (hans : pyStrip answer ≠ "")
    (hlast : ¬ (s.answers.length + 1 < s.max_questions))
    (hfail : truthy (evaluate_answers gw s.job_title model_name s.questions
      (s.answers ++ [answer])).1 = false) :
    (submitAnswer gw model_name interview_type user_name timestamp s answer).state.evaluation = "" ∧
    phase (submitAnswer gw model_name interview_type user_name timestamp s answer).state =
      Phase.inProgress ∧
    (submitAnswer gw model_name interview_type user_name timestamp s answer).state.answers =
      s.answers ++ [answer] ∧
    (submitAnswer gw model_name interview_type user_name timestamp s answer).state.feedback =
      s.feedback ++ [get_feedback_for_answer gw model_name
        (s.questions.getD s.answers.length "") answer] ∧
    (submitAnswer gw model_name interview_type user_name timestamp s answer).state.questions =
      s.questions ∧
    "Failed to get final evaluation."
      ∈ (submitAnswer gw model_name interview_type user_name timestamp s answer).errors ∧
    (submitAnswer gw model_name interview_type user_name timestamp s answer).stored = [] := by
  unfold submitAnswer
  rw [if_pos ⟨hst, hev, hpend⟩, if_pos hans]
  dsimp only
  rw [if_neg (by simpa using hlast), if_neg (by simp [hfail])]
  refine ⟨hev, ?_, rfl, rfl, rfl, by simp, rfl⟩
  simp [phase, hst, hev]

/-- Witness for C3: a failing gateway on the last answer of a concrete
one-question session. -/
theorem C3_eval_failure_keeps_answer_witness :
    sLast.interview_started = true ∧ sLast.evaluation = "" ∧
    sLast.answers.length < sLast.questions.length ∧
    pyStrip "my answer" ≠ "" ∧
    ¬ (sLast.answers.length + 1 < sLast.max_questions) ∧
    truthy (evaluate_answers gwDown sLast.job_title "model-x" sLast.questions
      (sLast.answers ++ ["my answer"])).1 = false ∧
    ((submitAnswer gwDown "model-x" "General" "Alice" "2024-01-02T03:04:05" sLast
        "my answer").state.evaluation = "" ∧
     phase (submitAnswer gwDown "model-x" "General" "Alice" "2024-01-02T03:04:05" sLast
        "my answer").state = Phase.inProgress ∧
     (submitAnswer gwDown "model-x" "General" "Alice" "2024-01-02T03:04:05" sLast
        "my answer").state.answers = sLast.answers ++ ["my answer"] ∧
     (submitAnswer gwDown "model-x" "General" "Alice" "2024-01-02T03:04:05" sLast
        "my answer").state.feedback = sLast.feedback ++ [get_feedback_for_answer gwDown
          "model-x" (sLast.questions.getD sLast.answers.length "") "my answer"] ∧
     (submitAnswer gwDown "model-x" "General" "Alice" "2024-01-02T03:04:05" sLast
        "my answer").state.questions = sLast.questions ∧
     "Failed to get final evaluation."
       ∈ (submitAnswer gwDown "model-x" "General" "Alice" "2024-01-02T03:04:05" sLast
           "my answer").errors ∧
     (submitAnswer gwDown "model-x" "General" "Alice" "2024-01-02T03:04:05" sLast
        "my answer").stored = []) :=
  ⟨by decide, by decide, by decide, by decide, by decide, by decide,
   C3_eval_failure_keeps_answer gwDown "model-x" "General" "Alice" "2024-01-02T03:04:05"
     "my answer" sLast (by decide) (by decide) (by decide) (by decide) (by decide)
     (by decide)⟩

/-- C4: when the per-answer feedback call fails but the subsequent call of
the transition (next question below target, final evaluation at target)
succeeds, the recorded answer is kept, the feedback slot for that turn
is `none`, no error is shown, and the session remains started: the
feedback failure is non-fatal and never rolls the answer back. -/
theorem C4_feedback_failure_nonfatal (gw : Gateway)
    (model_name interview_type user_name timestamp answer : String) (s : SessionState)
    (hst : s.interview_started = true) (hev : s.evaluation = "")
    (hpend : s.answers.length < s.questions.length)
    (hans : pyStrip answer ≠ "")
    (hfb : get_feedback_for_answer gw model_name
      (s.questions.getD s.answers.length "") answer = none)
    (hsecond : truthy (if s.answers.length + 1 < s.max_questions then
        (generate_question gw s.job_title model_name s.max_questions interview_type
          s.questions (s.answers ++ [answer])).1
      else
        (evaluate_answers gw s.job_title model_name s.questions
          (s.answers ++ [answer])).1) = true) :
    (submitAnswer gw model_name interview_type user_name timestamp s answer).state.answers =
      s.answers ++ [answer] ∧
    (submitAnswer gw model_name interview_type user_name timestamp s answer).state.feedback =
      s.feedback ++ [none] ∧
    (submitAnswer gw model_name interview_type user_name timestamp s answer).errors = [] ∧
    (submitAnswer gw model_name interview_type user_name timestamp s answer).state.interview_started
      = true := by
  unfold submitAnswer
  rw [if_pos ⟨hst, hev, hpend⟩, if_pos hans]
  dsimp only
  simp only [List.length_append, List.length_cons, List.length_nil] at *
  split
  case isTrue hbr =>
    rw [if_pos hbr] at hsecond
    rw [if_pos hsecond]
    refine ⟨rfl, by rw [hfb], ?_, hst⟩
    exact generate_question_truthy_no_error gw s.job_title model_name s.max_questions
      interview_type s.questions (s.answers ++ [answer]) hsecond
  case isFalse hbr =>
    rw [if_neg hbr] at hsecond
    rw [if_pos hsecond]
    refine ⟨rfl, by rw [hfb], ?_, hst⟩
    exact evaluate_answers_truthy_no_error gw s.job_title model_name s.questions
      (s.answers ++ [answer]) hsecond

/-- Witness for C4: a gateway on which only the feedback request fails
(the next question is generated fine) on a concrete pending state. -/
theorem C4_feedback_failure_nonfatal_witness :
    sPending.interview_started = true ∧ sPending.evaluation = "" ∧
    sPending.answers.length < sPending.questions.length ∧
    pyStrip "my answer" ≠ "" ∧
    get_feedback_for_answer gwFeedbackDown "model-x"
      (sPending.questions.getD sPending.answers.length "") "my answer" = none ∧
    truthy (if sPending.answers.length + 1 < sPending.max_questions then
        (generate_question gwFeedbackDown sPending.job_title "model-x"
          sPending.max_questions "General" sPending.questions
          (sPending.answers ++ ["my answer"])).1
      else
        (evaluate_answers gwFeedbackDown sPending.job_title "model-x" sPending.questions
          (sPending.answers ++ ["my answer"])).1) = true ∧
    ((submitAnswer gwFeedbackDown "model-x" "General" "Alice" "2024-01-02T03:04:05"
        sPending "my answer").state.answers = sPending.answers ++ ["my answer"] ∧
     (submitAnswer gwFeedbackDown "model-x" "General" "Alice" "2024-01-02T03:04:05"
        sPending "my answer").state.feedback = sPending.feedback ++ [none] ∧
     (submitAnswer gwFeedbackDown "model-x" "General" "Alice" "2024-01-02T03:04:05"
        sPending "my answer").errors = [] ∧
     (submitAnswer gwFeedbackDown "model-x" "General" "Alice" "2024-01-02T03:04:05"
        sPending "my answer").state.interview_started = true) :=
  ⟨by decide, by decide, by decide, by decide, by decide, by decide,
   C4_feedback_failure_nonfatal gwFeedbackDown "model-x" "General" "Alice"
     "2024-01-02T03:04:05" "my answer" sPending (by decide) (by decide) (by decide)
     (by decide) (by decide) (by decide)⟩

/-- C10: if the provider returns an all-whitespace text for the first
question, Start behaves exactly like on a request failure: the stripped
result is falsy, so no Turn is created, the session stays NotStarted,
the "Failed to start interview" error is shown, and the resulting state
equals the one any erroring gateway would produce. -/
theorem C10_whitespace_first_question (gw : Gateway) (api_key model_name : String)
    (max_questions : Nat) (job_title interview_type : String) (s : SessionState)
    (t : String)
    (hst : s.interview_started = false)
    (hkey : api_key ≠ "") (hjob : job_title ≠ "")
    (hgw : gw (question_request job_title model_name max_questions interview_type [] [])
      = ApiResult.ok t)
    (ht : pyStrip t = "") :
    (startInterview gw api_key model_name max_questions job_title interview_type
      s).state.questions = [] ∧
    (startInterview gw api_key model_name max_questions job_title interview_type
      s).state.interview_started = false ∧
    phase (startInterview gw api_key model_name max_questions job_title interview_type
      s).state = Phase.notStarted ∧
    (startInterview gw api_key model_name max_questions job_title interview_type
      s).errors = ["Failed to start interview. Check API key or model choice."] ∧
    ∀ e : ApiError,
      (startInterview (fun _ => ApiResult.err e) api_key model_name max_questions
        job_title interview_type s).state =
      (startInterview gw api_key model_name max_questions job_title interview_type
        s).state := by
  have hg : generate_question gw job_title model_name max_questions interview_type [] []
      = (some (pyStrip t), []) := by
    unfold generate_question
    rw [hgw]
  have hnt : truthy (some (pyStrip t)) = false := by simp [truthy, ht]
  unfold startInterview
  rw [if_neg (by simp [hst]), if_pos ⟨hkey, hjob⟩]
  dsimp only
  rw [hg]
  dsimp only
  rw [if_neg (by simp [hnt])]
  refine ⟨rfl, hst, by simp [phase, hst], rfl, ?_⟩
  intro e
  rw [if_neg (by simp [hst]), if_pos ⟨hkey, hjob⟩]
  dsimp only
  have hge : generate_question (fun _ => ApiResult.err e) job_title model_name
      max_questions interview_type [] [] =
      ((none : Option String),
        (generate_question (fun _ => ApiResult.err e) job_title model_name
          max_questions interview_type [] []).2) := by
    unfold generate_question
    cases e <;> rfl
  rw [hge]
  rfl

/-- Witness for C10: a gateway answering only tabs and newlines fails a
fresh Start just like the always-erroring gateway does. -/
theorem C10_whitespace_first_question_witness :
    initState.interview_started = false ∧
    ("key" : String) ≠ "" ∧ ("Engineer" : String) ≠ "" ∧
    gwFixed " \t\n" (question_request "Engineer" "model-x" 3 "General" [] [])
      = ApiResult.ok " \t\n" ∧
    pyStrip " \t\n" = "" ∧
    ((startInterview (gwFixed " \t\n") "key" "model-x" 3 "Engineer" "General"
        initState).state.questions = [] ∧
     (startInterview (gwFixed " \t\n") "key" "model-x" 3 "Engineer" "General"
        initState).state.interview_started = false ∧
     phase (startInterview (gwFixed " \t\n") "key" "model-x" 3 "Engineer" "General"
        initState).state = Phase.notStarted ∧
     (startInterview (gwFixed " \t\n") "key" "model-x" 3 "Engineer" "General"
        initState).errors = ["Failed to start interview. Check API key or model choice."] ∧
     ∀ e : ApiError,
       (startInterview (fun _ => ApiResult.err e) "key" "model-x" 3 "Engineer" "General"
         initState).state =
       (startInterview (gwFixed " \t\n") "key" "model-x" 3 "Engineer" "General"
         initState).state) :=
  ⟨by decide, by decide, by decide, by decide, by decide,
   C10_whitespace_first_question (gwFixed " \t\n") "key" "model-x" 3 "Engineer" "General"
     initState " \t\n" (by decide) (by decide) (by decide) (by decide) (by decide)⟩

/-- C8: the requests issued by SubmitAnswer — in particular the
final-evaluation instruction — are a function of the configuration and
the question/answer transcript only: two sessions equal except for
arbitrarily different feedback lists issue identical request lists, so
feedback text never flows into the evaluation prompt. -/
theorem C8_evaluation_prompt_ignores_feedback (gw : Gateway)
    (model_name interview_type user_name timestamp answer : String)
    (s1 s2 : SessionState)
    (hq : s1.questions = s2.questions) (ha : s1.answers = s2.answers)
    (hj : s1.job_title = s2.job_title) (hst : s1.interview_started = s2.interview_started)
    (hev : s1.evaluation = s2.evaluation) (hmax : s1.max_questions = s2.max_questions) :
    (submitAnswer gw model_name interview_type user_name timestamp s1 answer).calls =
    (submitAnswer gw model_name interview_type user_name timestamp s2 answer).calls := by
  obtain ⟨st1, q1, a1, f1, e1, j1, m1⟩ := s1
  obtain ⟨st2, q2, a2, f2, e2, j2, m2⟩ := s2
  dsimp only at hq ha hj hst hev hmax
  subst hq; subst ha; subst hj; subst hst; subst hev; subst hmax
  unfold submitAnswer
  dsimp only
  split
  · split
    · split
      · split <;> rfl
      · split <;> rfl
    · rfl
  · rfl

/-- Witness for C8: two concrete sessions differing only in their feedback
lists (one has real feedback text, one has none) issue identical
requests for the same final answer. -/
theorem C8_evaluation_prompt_ignores_feedback_witness :
    ({ sLast with feedback := [] } : SessionState).questions =
      ({ sLast with feedback := [some "Some stored feedback"] } : SessionState).questions ∧
    ({ sLast with feedback := [] } : SessionState).answers =
      ({ sLast with feedback := [some "Some stored feedback"] } : SessionState).answers ∧
    ({ sLast with feedback := [] } : SessionState).job_title =
      ({ sLast with feedback := [some "Some stored feedback"] } : SessionState).job_title ∧
    ({ sLast with feedback := [] } : SessionState).interview_started =
      ({ sLast with feedback := [some "Some stored feedback"] } : SessionState).interview_started ∧
    ({ sLast with feedback := [] } : SessionState).evaluation =
      ({ sLast with feedback := [some "Some stored feedback"] } : SessionState).evaluation ∧
    ({ sLast with feedback := [] } : SessionState).max_questions =
      ({ sLast with feedback := [some "Some stored feedback"] } : SessionState).max_questions ∧
    (submitAnswer (gwFixed "text") "model-x" "General" "Alice" "2024-01-02T03:04:05"
      { sLast with feedback := [] } "my answer").calls =
    (submitAnswer (gwFixed "text") "model-x" "General" "Alice" "2024-01-02T03:04:05"
      { sLast with feedback := [some "Some stored feedback"] } "my answer").calls :=
  ⟨by decide, by decide, by decide, by decide, by decide, by decide,
   C8_evaluation_prompt_ignores_feedback (gwFixed "text") "model-x" "General" "Alice"
     "2024-01-02T03:04:05" "my answer"
     { sLast with feedback := [] } { sLast with feedback := [some "Some stored feedback"] }
     (by decide) (by decide) (by decide) (by decide) (by decide) (by decide)⟩

/-- C6 counterexample: on a completed one-question session the record
handed to the store carries the key "user" — not "participant" as the
claim states — alongside the seven other keys. -/
theorem C6_counterexample :
    ((submitAnswer (gwFixed "Good overall.") "model-x" "General" "Alice"
        "2024-01-02T03:04:05" sLast "my answer").stored.map
      (fun r => r.map Prod.fst)) =
      [["user", "job_title", "questions", "answers", "feedback", "evaluation",
        "model", "timestamp"]] ∧
    ¬ "participant" ∈ ((submitAnswer (gwFixed "Good overall.") "model-x" "General"
        "Alice" "2024-01-02T03:04:05" sLast "my answer").stored.map
      (fun r => r.map Prod.fst)).flatten := by
  refine ⟨by decide, by decide⟩

/-- C6 (amended: the participant field is keyed "user", holding the
participant name or "Anonymous"): whenever SubmitAnswer completes the
session, exactly one record is handed to the store, with exactly the
keys {user, job_title, questions, answers, feedback, evaluation, model,
timestamp} in that order, holding the session's question/answer lists,
the string-or-null feedback list, the evaluation text, and the
timestamp string produced at completion time. -/
theorem C6_stored_record_fields (gw : Gateway)
    (model_name interview_type user_name timestamp answer : String) (s : SessionState)
    (hst : s.interview_started = true) (hev : s.evaluation = "")
    (hpend : s.answers.length < s.questions.length)
    (hans : pyStrip answer ≠ "")
    (hlast : ¬ (s.answers.length + 1 < s.max_questions))
    (hok : truthy (evaluate_answers gw s.job_title model_name s.questions
      (s.answers ++ [answer])).1 = true) :
    (submitAnswer gw model_name interview_type user_name timestamp s answer).stored =
      [session_data user_name s.job_title s.questions (s.answers ++ [answer])
        (s.feedback ++ [get_feedback_for_answer gw model_name
          (s.questions.getD s.answers.length "") answer])
        ((evaluate_answers gw s.job_title model_name s.questions
          (s.answers ++ [answer])).1.getD "")
        model_name timestamp] ∧
    ((submitAnswer gw model_name interview_type user_name timestamp s answer).stored.map
      (fun r => r.map Prod.fst)) =
      [["user", "job_title", "questions", "answers", "feedback", "evaluation",
        "model", "timestamp"]] := by
  unfold submitAnswer
  rw [if_pos ⟨hst, hev, hpend⟩, if_pos hans]
  dsimp only
  rw [if_neg (by simpa using hlast), if_pos hok]
  exact ⟨rfl, by simp [session_data]⟩

/-- Witness for C6: a concrete completed session stores exactly one
correctly shaped record. -/
theorem C6_stored_record_fields_witness :
    sLast.interview_started = true ∧ sLast.evaluation = "" ∧
    sLast.answers.length < sLast.questions.length ∧
    pyStrip "my answer" ≠ "" ∧
    ¬ (sLast.answers.length + 1 < sLast.max_questions) ∧
    truthy (evaluate_answers (gwFixed "Good overall.") sLast.job_title "model-x"
      sLast.questions (sLast.answers ++ ["my answer"])).1 = true ∧
    ((submitAnswer (gwFixed "Good overall.") "model-x" "General" "Alice"
        "2024-01-02T03:04:05" sLast "my answer").stored =
      [session_data "Alice" sLast.job_title sLast.questions (sLast.answers ++ ["my answer"])
        (sLast.feedback ++ [get_feedback_for_answer (gwFixed "Good overall.") "model-x"
          (sLast.questions.getD sLast.answers.length "") "my answer"])
        ((evaluate_answers (gwFixed "Good overall.") sLast.job_title "model-x"
          sLast.questions (sLast.answers ++ ["my answer"])).1.getD "")
        "model-x" "2024-01-02T03:04:05"] ∧
     ((submitAnswer (gwFixed "Good overall.") "model-x" "General" "Alice"
        "2024-01-02T03:04:05" sLast "my answer").stored.map
       (fun r => r.map Prod.fst)) =
       [["user", "job_title", "questions", "answers", "feedback", "evaluation",
         "model", "timestamp"]]) :=
  ⟨by decide, by decide, by decide, by decide, by decide, by decide,
   C6_stored_record_fields (gwFixed "Good overall.") "model-x" "General" "Alice"
     "2024-01-02T03:04:05" "my answer" sLast (by decide) (by decide) (by decide)
     (by decide) (by decide) (by decide)⟩

/-- The empty string is the least string in the lexicographic order. -/
theorem empty_string_le (s : String) : ("" : String) ≤ s := by
  rw [String.le_iff_toList_le]
  exact List.nil_le

/-- A string below the empty string is empty. -/
theorem eq_empty_of_le_empty {s : String} (h : s ≤ "") : s = "" :=
  le_antisymm h (empty_string_le s)

/-- C7 counterexample: the history page sorts by the RAW timestamp string
descending, so a record whose timestamp is the malformed string
"not-a-timestamp" sorts BEFORE a well-formed ISO timestamp (letters
compare above digits) — not last, as the claim states. -/
theorem C7_counterexample :
    (sorted_interviews
      [("id_valid", [("timestamp", JsonVal.str "2024-05-01T10:00:00")]),
       ("id_malformed", [("timestamp", JsonVal.str "not-a-timestamp")])]).map Prod.fst =
      ["id_malformed", "id_valid"] := by
  decide

/-- C7 (amended: malformed-but-present timestamps sort by their raw string
value, wherever that falls; only MISSING timestamps — whose sort key is
the empty string — are guaranteed to sort last): the history read path
returns a permutation of the stored records in descending order of the
raw timestamp key, and every record without a timestamp comes after
every record that has one. -/
theorem C7_history_sort_order (l : List (String × Record)) :
    (sorted_interviews l).Perm l ∧
    (sorted_interviews l).Sorted timestampGe ∧
    (sorted_interviews l).Pairwise
      (fun a b => timestampKey b.2 ≠ "" → timestampKey a.2 ≠ "") := by
  refine ⟨List.perm_insertionSort _ _, List.sorted_insertionSort _ _, ?_⟩
  refine List.Pairwise.imp ?_ (List.sorted_insertionSort timestampGe l)
  intro a b hab hbne
  by_contra hae
  have hab2 : timestampKey b.2 ≤ timestampKey a.2 := hab
  rw [hae] at hab2
  exact hbne (eq_empty_of_le_empty hab2)

end MockInterview






